import Mathlib

/-!
# Verification of TheWallflower stream-worker core

A shallow embedding, in Lean 4, of the stream-worker and stream-manager logic
of the TheWallflower backend (`backend/app/worker.py`,
`backend/app/stream_manager.py`, `backend/app/services/transcript_service.py`),
together with theorems settling the specification claims about it.

Modelling conventions:
* Python `datetime` values are modelled as `Nat` seconds since the epoch;
  durations are `Nat` seconds.
* Python floats that are only stored and compared (transcript offsets, fps)
  are modelled as `ℚ`; no floating-point arithmetic occurs on the modelled
  paths.
* Mutable Python objects threaded through one logical flow are modelled by
  explicit state passing; the one place where Python reference semantics is
  itself at issue (the `StreamWorker.status` property) uses an explicit
  heap from addresses to status records.
* Exceptions are modelled by `Except` / an explicit `Option PyError` result.
* Attribute and keyword-argument resolution failures (Python `AttributeError`
  and `TypeError`) are modelled by name-list lookups against the attribute
  and parameter names that actually occur in the source files.
-/

namespace TheWallflower

/-- Python runtime errors relevant to the modelled code paths. -/
inductive PyError where
  | typeError
  | attributeError
deriving DecidableEq

/-! ## Constants (worker.py lines 35-43, stream_manager.py lines 36-38) -/

/-- `WHISPER_RECONNECT_BACKOFF = [1, 2, 5, 10, 30, 60]` (seconds). -/
def WHISPER_RECONNECT_BACKOFF : List Nat := [1, 2, 5, 10, 30, 60]

/-- `VIDEO_RECONNECT_BACKOFF = [1, 2, 4, 8, 16, 30, 60, 120]` (seconds). -/
def VIDEO_RECONNECT_BACKOFF : List Nat := [1, 2, 4, 8, 16, 30, 60, 120]

/-- `MAX_CONSECUTIVE_FAILURES = 10` before the circuit breaker opens. -/
def MAX_CONSECUTIVE_FAILURES : Nat := 10

/-- `CIRCUIT_BREAKER_RESET_TIME = 300` seconds before half-open. -/
def CIRCUIT_BREAKER_RESET_TIME : Nat := 300

/-- `WATCHDOG_TIMEOUT = 30` seconds without audio before restart. -/
def WATCHDOG_TIMEOUT : Nat := 30

/-! ## Enums (worker.py lines 46-59) -/

/-- `ConnectionState` enum of worker.py. -/
inductive ConnectionState where
  | connecting
  | connected
  | retrying
  | failed
  | stopped
deriving DecidableEq

/-- `CircuitBreakerState` enum of worker.py.  The source values are
`"closed"`, `"open"`, `"half_open"`; `open` is a Lean keyword so the middle
constructor is named `opened`. -/
inductive CircuitBreakerState where
  | closed
  | opened
  | halfOpen
deriving DecidableEq

/-! ## Data records (worker.py lines 62-96, models.py) -/

/-- `TranscriptSegment` dataclass of worker.py. -/
structure TranscriptSegment where
  text : String
  start_time : ℚ
  end_time : ℚ
  is_final : Bool := false
deriving DecidableEq

/-- `StreamStatus` dataclass of worker.py (times as `Nat` seconds). -/
structure StreamStatus where
  stream_id : Int
  is_running : Bool := false
  video_connected : Bool := false
  audio_connected : Bool := false
  whisper_connected : Bool := false
  fps : ℚ := 0
  error : Option String := none
  last_transcript : Option String := none
  video_thread_alive : Bool := false
  audio_thread_alive : Bool := false
  ffmpeg_restarts : Nat := 0
  whisper_reconnects : Nat := 0
  last_frame_time : Option Nat := none
  last_audio_time : Option Nat := none
  connection_state : ConnectionState := ConnectionState.stopped
  retry_count : Nat := 0
  next_retry_time : Option Nat := none
  last_successful_connection : Option Nat := none
  circuit_breaker_state : CircuitBreakerState := CircuitBreakerState.closed
  consecutive_failures : Nat := 0
deriving DecidableEq

/-- The field names of the `StreamStatus` dataclass, exactly as declared in
worker.py lines 71-95.  Used to model Python attribute lookup on a status
object: `getattr` succeeds exactly for these names. -/
def streamStatusFieldNames : List String :=
  ["stream_id", "is_running", "video_connected", "audio_connected",
   "whisper_connected", "fps", "error", "last_transcript",
   "video_thread_alive", "audio_thread_alive", "ffmpeg_restarts",
   "whisper_reconnects", "last_frame_time", "last_audio_time",
   "connection_state", "retry_count", "next_retry_time",
   "last_successful_connection", "circuit_breaker_state",
   "consecutive_failures"]

/-- The attribute names bound on a `StreamWorker` instance: the instance
attributes assigned in `__init__` (worker.py lines 106-137) and the methods
and properties defined in the class body.  Python attribute lookup on a
worker succeeds exactly for these names. -/
def streamWorkerAttrNames : List String :=
  ["config", "whisper_host", "whisper_port", "on_transcript",
   "_stop_event", "_video_thread", "_audio_thread", "_stderr_thread",
   "_ffmpeg_process", "_status", "_processors", "_mjpeg_streamer",
   "_transcript_segments", "_transcript_lock",
   "_whisper_reconnect_attempts", "_emit_status_event", "status",
   "mjpeg_streamer", "transcripts", "_write_transcript_to_file",
   "start", "stop", "_setup_processors", "_video_loop", "_audio_loop",
   "_read_ffmpeg_stderr", "_get_audio_source_url", "_whisper_connection",
   "_send_audio", "_receive_transcripts"]

/-- The subset of `StreamConfig` (models.py `StreamConfigBase`) read by the
worker and manager code paths modelled here. -/
structure StreamConfig where
  id : Int
  name : String
  rtsp_url : String
  whisper_enabled : Bool := true
  face_detection_enabled : Bool := false
  save_transcripts_to_file : Bool := false
  transcript_file_path : Option String := none
deriving DecidableEq

/-- `TranscriptCreate` schema of models.py lines 212-220. -/
structure TranscriptCreate where
  stream_id : Int
  text : String
  start_time : ℚ
  end_time : ℚ
  is_final : Bool := true
  confidence : Option ℚ := none
  speaker_id : Option Int := none
deriving DecidableEq

/-! ## Python string stripping

`segment.text.strip()` is used for its truthiness at worker.py line 644:
the segment is persisted only when some non-whitespace character remains. -/

/-- The characters removed by Python `str.strip()` with no argument. -/
def isPyWhitespace (c : Char) : Bool :=
  c = ' ' ∨ c = '\t' ∨ c = '\n' ∨ c = '\r' ∨ c = '\x0b' ∨ c = '\x0c'

/-- Truthiness of `s.strip()`: true iff some character of `s` is not
whitespace. -/
def pyStripTruthy (s : String) : Bool :=
  s.data.any (fun c => !(isPyWhitespace c))

/-! ## Receiving transcripts (`StreamWorker._receive_transcripts`, worker.py
lines 618-676)

For each received message that parses as JSON and contains a `"text"` key,
the body of the receive loop builds a `TranscriptSegment`, appends it to the
in-memory buffer (trimmed to the last 100 entries, worker.py lines 634-639),
records it as the last transcript, persists it via
`transcript_service.add` when it is final and its stripped text is
non-empty (lines 643-651), writes it to the transcript file when
additionally `save_transcripts_to_file` is set (lines 653-655), invokes the
`on_transcript` callback when one is registered (lines 657-659), and emits
one SSE transcript event (lines 661-667).  Messages without a `"text"` key
leave the state unchanged.  There is no deduplication of any kind on this
path. -/

/-- `self._transcript_segments[-100:]` applied when the buffer exceeds 100
entries (worker.py lines 637-639). -/
def trimTo100 (l : List TranscriptSegment) : List TranscriptSegment :=
  if 100 < l.length then l.drop (l.length - 100) else l

/-- Observable state of the receive path: the worker's in-memory buffer and
last-transcript field, plus the traces of its external effects
(`transcript_service.add` calls, transcript-file writes,
`on_transcript` callbacks, `event_broadcaster.emit_transcript` events). -/
structure ReceiveState where
  transcript_segments : List TranscriptSegment := []
  last_transcript : Option String := none
  persisted : List TranscriptCreate := []
  file_writes : List String := []
  callback_calls : List TranscriptSegment := []
  emitted : List TranscriptSegment := []
deriving DecidableEq

/-- One iteration of the body of `_receive_transcripts` for a message whose
parsed JSON contains `"text"`; the arguments are `data.get("text", "")`,
`data.get("start", 0.0)`, `data.get("end", 0.0)`, and
`data.get("is_final", False)`.  `hasCallback` is whether `on_transcript`
is set. -/
def receiveTranscriptMessage (cfg : StreamConfig) (hasCallback : Bool)
    (st : ReceiveState) (text : String) (start endTime : ℚ)
    (isFinal : Bool) : ReceiveState :=
  let segment : TranscriptSegment :=
    { text := text, start_time := start, end_time := endTime,
      is_final := isFinal }
  let buf := trimTo100 (st.transcript_segments ++ [segment])
  let persisted :=
    if segment.is_final && pyStripTruthy segment.text then
      st.persisted ++
        [{ stream_id := cfg.id, text := segment.text,
           start_time := segment.start_time, end_time := segment.end_time,
           is_final := true }]
    else st.persisted
  let fileWrites :=
    if segment.is_final && pyStripTruthy segment.text
        && cfg.save_transcripts_to_file then
      st.file_writes ++ [segment.text]
    else st.file_writes
  let callbacks :=
    if hasCallback then st.callback_calls ++ [segment]
    else st.callback_calls
  { transcript_segments := buf
    last_transcript := some segment.text
    persisted := persisted
    file_writes := fileWrites
    callback_calls := callbacks
    emitted := st.emitted ++ [segment] }

/-! ## The audio loop (`StreamWorker._audio_loop`, worker.py lines 433-463)

Each iteration runs `asyncio.run(self._whisper_connection())` and then, if
the stop event is not set, sleeps for a backoff delay and retries.  Crucial
detail of the source: `_whisper_connection` catches `ConnectionClosed`,
`ConnectionRefusedError` and `Exception` internally (worker.py lines
571-576), so a session that fails with any of those returns normally from
`asyncio.run`, and line 442 then resets `_whisper_reconnect_attempts` to 0
exactly as it would after a graceful session.  Only a session whose failure
propagates out of `asyncio.run` keeps the attempt counter (the `except`
branch at lines 443-445).  The circuit-breaker fields of the status are
never touched on this path. -/

/-- How one `asyncio.run(self._whisper_connection())` call ends:
`swallowed` when `_whisper_connection` returns normally — including every
refused/closed/errored session caught by its own `except` clauses — and
`raised` when an exception propagates out of `asyncio.run`. -/
inductive SessionOutcome where
  | swallowed
  | raised
deriving DecidableEq

/-- State of the audio loop: the worker fields it touches plus the trace of
connection attempts and backoff sleeps. -/
structure AudioLoopState where
  status : StreamStatus
  whisper_reconnect_attempts : Nat := 0
  stop_event_set : Bool := false
  attempts_made : Nat := 0
  delays : List Nat := []
deriving DecidableEq

/-- One iteration of the `while` loop of `_audio_loop`. -/
def audioIter (st : AudioLoopState) (outcome : SessionOutcome) :
    AudioLoopState :=
  if st.stop_event_set then st
  else
    let st := { st with attempts_made := st.attempts_made + 1 }
    let st :=
      match outcome with
      | SessionOutcome.swallowed =>
          { st with whisper_reconnect_attempts := 0 }
      | SessionOutcome.raised =>
          { st with status := { st.status with whisper_connected := false } }
    let backoffIndex :=
      min st.whisper_reconnect_attempts (WHISPER_RECONNECT_BACKOFF.length - 1)
    let delay := WHISPER_RECONNECT_BACKOFF.getD backoffIndex 0
    { st with
      whisper_reconnect_attempts := st.whisper_reconnect_attempts + 1
      status := { st.status with
        whisper_reconnects := st.status.whisper_reconnects + 1 }
      delays := st.delays ++ [delay] }

/-- The retry-delay schedule the spec claims: the i-th retry delay is
`table[min(i, len(table)-1)]` over the whisper backoff table. -/
def claimedAudioDelay (i : Nat) : Nat :=
  WHISPER_RECONNECT_BACKOFF.getD (min i (WHISPER_RECONNECT_BACKOFF.length - 1)) 0

/-! ## Worker lifecycle (`StreamWorker.start` / `StreamWorker.stop`,
worker.py lines 213-270)

`start()` returns immediately when `self._status.is_running` is already
true; otherwise it clears the stop event, marks the status running with no
error, emits a status event, sets up and starts the processors, spawns the
video thread, and spawns the audio thread when `whisper_enabled` is set.

`stop()` returns immediately when the status is not running; otherwise it
sets the stop event, marks the status not running, stops the processors,
joins the video and audio threads with 5-second timeouts, clears the three
connectivity flags, and emits a status event.  `stop()` itself never touches
`self._ffmpeg_process` and never writes `connection_state`: the ffmpeg
subprocess is torn down only by the `finally` block of
`_whisper_connection` (worker.py lines 577-588) when the audio session
exits, and `connection_state = STOPPED` is written only by the cleanup at
the end of `_video_loop` (lines 426-431) when the video thread exits.
Whether those loops exit during the bounded joins is environmental (a
thread blocked in `ffmpeg_process.stdout.read` never observes the stop
event), so `stop` takes a `StopEnv` saying which loops exit. -/

/-- Whether each loop thread observes the stop event and exits (running its
cleanup) during the bounded join of `stop()`.  A thread blocked in a
subprocess read does not. -/
structure StopEnv where
  video_thread_exits : Bool
  audio_thread_exits : Bool
deriving DecidableEq

/-- Value-level model of a `StreamWorker`: its configuration, stop event,
status object, and counters witnessing thread/subprocess creation. -/
structure WorkerModel where
  config : StreamConfig
  stop_event_set : Bool := false
  status : StreamStatus
  processors_live : Bool := false
  video_threads_spawned : Nat := 0
  audio_threads_spawned : Nat := 0
  video_thread_live : Bool := false
  audio_thread_live : Bool := false
  ffmpeg_running : Bool := false
  status_events : Nat := 0
deriving DecidableEq

namespace StreamWorker

/-- Cleanup at the end of `_video_loop` (worker.py lines 426-431): release
the capture, clear `video_connected`, set `connection_state = STOPPED`. -/
def videoLoopCleanup (w : WorkerModel) : WorkerModel :=
  { w with
    video_thread_live := false
    status := { w.status with
      video_connected := false
      connection_state := ConnectionState.stopped } }

/-- Cleanup when the audio session and loop exit: the `finally` block of
`_whisper_connection` (worker.py lines 577-588) clears the whisper/audio
flags, emits a status event, and terminates the ffmpeg process (terminate,
5 s wait, then kill — the process is no longer running either way). -/
def audioLoopCleanup (w : WorkerModel) : WorkerModel :=
  { w with
    audio_thread_live := false
    ffmpeg_running := false
    status := { w.status with
      whisper_connected := false
      audio_connected := false }
    status_events := w.status_events + 1 }

/-- `StreamWorker.start` (worker.py lines 213-243). -/
def start (w : WorkerModel) : WorkerModel :=
  if w.status.is_running then w
  else
    { w with
      stop_event_set := false
      status := { w.status with is_running := true, error := none }
      status_events := w.status_events + 1
      processors_live := true
      video_threads_spawned := w.video_threads_spawned + 1
      video_thread_live := true
      audio_threads_spawned :=
        w.audio_threads_spawned + (if w.config.whisper_enabled then 1 else 0)
      audio_thread_live := w.config.whisper_enabled }

/-- `StreamWorker.stop` (worker.py lines 245-270). -/
def stop (env : StopEnv) (w : WorkerModel) : WorkerModel :=
  if !w.status.is_running then w
  else
    let w := { w with
      stop_event_set := true
      status := { w.status with is_running := false }
      processors_live := false }
    let w :=
      if env.video_thread_exits && w.video_thread_live then
        videoLoopCleanup w
      else w
    let w :=
      if env.audio_thread_exits && w.audio_thread_live then
        audioLoopCleanup w
      else w
    { w with
      status := { w.status with
        video_connected := false
        audio_connected := false
        whisper_connected := false }
      status_events := w.status_events + 1 }

end StreamWorker

/-! ## Health monitor (`StreamManager._check_thread_health`,
stream_manager.py lines 417-471)

For each worker whose (thread-health-refreshed) status is running: if
transcription is enabled and the audio thread is dead, it is respawned in
place (`_resurrect_audio_thread`); otherwise, if transcription is enabled,
the audio thread is alive, and the time since `last_audio_time` exceeds
`WATCHDOG_TIMEOUT`, the monitor runs `worker.stop()` then `worker.start()`
and then evaluates `worker._update_status(...)` — but `StreamWorker`
defines no attribute `_update_status` (and `StreamStatus` has no field
`watchdog_restarts`), so that lookup raises `AttributeError`, which the
surrounding `except` catches and logs.  The restart therefore happens but
no restart counter is incremented. -/

/-- The `status` property's refresh of the thread-health flags
(worker.py lines 161-173), as the value the monitor reads. -/
def refreshedStatus (w : WorkerModel) : StreamStatus :=
  { w.status with
    video_thread_alive := w.video_thread_live
    audio_thread_alive := w.audio_thread_live }

/-- `StreamManager._resurrect_audio_thread` (stream_manager.py lines
473-483): spawn a fresh audio thread on the worker. -/
def resurrectAudioThread (w : WorkerModel) : WorkerModel :=
  { w with
    audio_threads_spawned := w.audio_threads_spawned + 1
    audio_thread_live := true }

/-- One worker's share of `StreamManager._check_thread_health`
(stream_manager.py lines 434-470).  Returns the worker after the check and
the Python error, if any, that the `try` block raised (and the `except`
caught). -/
def checkWorkerHealth (now : Nat) (env : StopEnv) (w : WorkerModel) :
    WorkerModel × Option PyError :=
  let status := refreshedStatus w
  if !status.is_running then (w, none)
  else if w.config.whisper_enabled && !status.audio_thread_alive then
    (resurrectAudioThread w, none)
  else if w.config.whisper_enabled && status.audio_thread_alive
      && decide (WATCHDOG_TIMEOUT < now - (status.last_audio_time).getD 0) then
    let w1 := StreamWorker.start (StreamWorker.stop env w)
    if streamWorkerAttrNames.contains "_update_status" then
      (w1, none)
    else
      (w1, some PyError.attributeError)
  else (w, none)

/-! ## The `status` property under reference semantics
(`StreamWorker.status`, worker.py lines 161-173)

The property mutates the live `self._status` dataclass in place (fps from
the MJPEG streamer, thread-alive flags) and then `return self._status` —
the very object, not a copy; there is no mutex anywhere around the status.
Python objects live on a heap and an attribute assignment mutates the
object all extant references point to, so this one place is modelled with
an explicit heap from addresses to `StreamStatus` records: the property
returns the worker's status *address*, and a later field assignment through
the worker is visible through any previously returned address. -/

/-- Python's object store, restricted to status objects. -/
def StatusHeap : Type := Nat → StreamStatus

/-- The per-worker data the `status` property reads: the address of the
worker's `_status` object, the thread handles' liveness, and the MJPEG
streamer's fps when one exists. -/
structure WorkerRef where
  statusAddr : Nat
  video_thread_live : Bool := false
  audio_thread_live : Bool := false
  mjpeg_fps : Option ℚ := none

/-- Write one status object in the heap. -/
def writeStatus (h : StatusHeap) (addr : Nat) (s : StreamStatus) :
    StatusHeap :=
  fun a => if a = addr then s else h a

/-- The `status` property (worker.py lines 161-173): update fps and the
thread-alive flags on the live object, then return a reference to it.
The result is the returned reference (the status address) together with
the heap after the in-place updates. -/
def statusProperty (h : StatusHeap) (w : WorkerRef) : Nat × StatusHeap :=
  let s := h w.statusAddr
  let s := match w.mjpeg_fps with
    | some f => { s with fps := f }
    | none => s
  let s := { s with
    video_thread_alive := w.video_thread_live
    audio_thread_alive := w.audio_thread_live }
  (w.statusAddr, writeStatus h w.statusAddr s)

/-- A field mutation performed by worker code with no lock held, e.g.
`self._status.whisper_connected = b` (worker.py line 524 / 578). -/
def setWhisperConnected (h : StatusHeap) (w : WorkerRef) (b : Bool) :
    StatusHeap :=
  writeStatus h w.statusAddr
    { h w.statusAddr with whisper_connected := b }

/-! ## Starting a stream (`StreamManager.start_stream`, stream_manager.py
lines 182-251)

Under the registry lock, an id already present returns `True`.  An id
absent from the database returns `False`.  Otherwise, after the best-effort
go2rtc registration (its exceptions are caught at lines 197-200), the
manager constructs the worker with

  `StreamWorker(config=..., whisper_host=..., whisper_port=...,`
  `             whisper_model=..., on_transcript=...)`

(stream_manager.py lines 207-213).  `StreamWorker.__init__` (worker.py
lines 106-116) accepts only `config`, `whisper_host`, `whisper_port` and
`on_transcript`; Python therefore raises
`TypeError: __init__() got an unexpected keyword argument 'whisper_model'`.
Nothing between the call site and the caller catches it (the `try` at line
232 begins after construction), so `start_stream` raises for every
configured, not-yet-running id. -/

/-- The parameter names of `StreamWorker.__init__` (worker.py lines
106-112), `self` excluded. -/
def streamWorkerInitParams : List String :=
  ["config", "whisper_host", "whisper_port", "on_transcript"]

/-- The keyword-argument names at the construction site in `start_stream`
(stream_manager.py lines 207-213). -/
def startStreamCallKeywords : List String :=
  ["config", "whisper_host", "whisper_port", "whisper_model",
   "on_transcript"]

/-- A Python call with keyword arguments binds without `TypeError` iff every
keyword names a formal parameter (the callee has no `**kwargs`). -/
def pyCallKeywordsAccepted (params keywords : List String) : Bool :=
  keywords.all (params.contains ·)

/-- `StreamManager.start_stream` for one id, over a database `db` (the
`StreamConfig` table) and the registry `workers` (the ids of live workers;
face/recording side registries are not modelled as they are never reached).
`Except.error` is an exception propagating to the caller. -/
def startStream (db : Int → Option StreamConfig) (workers : List Int)
    (streamId : Int) : Except PyError (Bool × List Int) :=
  if workers.contains streamId then Except.ok (true, workers)
  else
    match db streamId with
    | none => Except.ok (false, workers)
    | some _ =>
      -- best-effort go2rtc registration: exceptions caught, no state effect
      match db streamId with  -- second Session fetch, lines 202-205
      | none => Except.ok (false, workers)
      | some _cfg =>
        if pyCallKeywordsAccepted streamWorkerInitParams
            startStreamCallKeywords then
          -- dead branch: the call passes `whisper_model`, which
          -- `StreamWorker.__init__` does not accept
          if workers.contains streamId then Except.ok (true, workers)
          else Except.ok (true, streamId :: workers)
        else Except.error PyError.typeError

/-! ## The video loop (`StreamWorker._video_loop`, worker.py lines 291-431)

The circuit breaker of the worker lives here, and only here.  Each `while`
iteration: when the breaker is OPEN and the cooldown (300 s from
`circuit_breaker_opened_at`) has not elapsed, it reports
`ConnectionState.FAILED` with a remaining-cooldown message and sleeps 10 s;
when the cooldown has elapsed it moves the breaker to HALF_OPEN and falls
through to the `try` block.  The `try` block: if the capture is not open it
attempts to open it; on failure it increments `retry_count` and
`consecutive_failures`, opens the breaker (recording the opening time) when
the failures reach `MAX_CONSECUTIVE_FAILURES`, and otherwise sleeps a
backoff delay from `VIDEO_RECONNECT_BACKOFF`; on success it resets
failures/retries, closes the breaker, and reads a frame.  With the capture
open it reads a frame; a failed read releases the capture and moves to
RETRYING (no failure counting).  An exception in the `try` block (modelled
as raised at its start, e.g. by `cv2.VideoCapture`) increments
`retry_count` and `consecutive_failures` and sleeps a backoff delay — it
never opens or reopens the breaker. -/

/-- The nondeterministic environment of one video-loop iteration: whether
the `try` block raises, whether the capture opens, whether the frame read
succeeds. -/
structure VideoEnv where
  raiseExc : Bool := false
  connectOk : Bool := false
  readOk : Bool := true
deriving DecidableEq

/-- State of the video loop: the worker status fields it touches, the
locals `cap`, `retry_count` and `circuit_breaker_opened_at`, and traces of
connection attempts and sleeps. -/
structure VideoLoopState where
  status : StreamStatus
  cap_open : Bool := false
  retry_count : Nat := 0
  breaker_opened_at : Option Nat := none
  attempts : Nat := 0
  sleeps : List Nat := []
deriving DecidableEq

/-- The backoff delay of the video loop for the given (already incremented)
`retry_count`: `VIDEO_RECONNECT_BACKOFF[min(retry_count - 1, len - 1)]`
(worker.py lines 360-361 and 422-423). -/
def videoBackoffDelay (retryCount : Nat) : Nat :=
  VIDEO_RECONNECT_BACKOFF.getD
    (min (retryCount - 1) (VIDEO_RECONNECT_BACKOFF.length - 1)) 0

/-- `f"Connection failed {MAX_CONSECUTIVE_FAILURES} times - pausing retries"`
(worker.py line 353). -/
def breakerOpenMsg : String :=
  "Connection failed " ++ toString MAX_CONSECUTIVE_FAILURES
    ++ " times - pausing retries"

/-- `f"Connection failed repeatedly. Auto-retry in {remaining}s"`
(worker.py line 311). -/
def cooldownMsg (remaining : Nat) : String :=
  "Connection failed repeatedly. Auto-retry in " ++ toString remaining ++ "s"

/-- `f"Connection failed, retry #{retry_count} in {delay}s"`
(worker.py line 364). -/
def retryMsg (retryCount delay : Nat) : String :=
  "Connection failed, retry #" ++ toString retryCount ++ " in "
    ++ toString delay ++ "s"

/-- The failed-open branch (worker.py lines 345-369). -/
def videoConnectFail (now : Nat) (s : VideoLoopState) : VideoLoopState :=
  let rc := s.retry_count + 1
  let cf := s.status.consecutive_failures + 1
  if MAX_CONSECUTIVE_FAILURES ≤ cf then
    { s with
      retry_count := rc
      breaker_opened_at := some now
      status := { s.status with
        consecutive_failures := cf
        circuit_breaker_state := CircuitBreakerState.opened
        connection_state := ConnectionState.failed
        error := some breakerOpenMsg } }
  else
    let delay := videoBackoffDelay rc
    { s with
      retry_count := rc
      status := { s.status with
        consecutive_failures := cf
        next_retry_time := some (now + delay)
        error := some (retryMsg rc delay) }
      sleeps := s.sleeps ++ [delay] }

/-- The successful-open branch (worker.py lines 371-381). -/
def videoConnectSuccess (now : Nat) (s : VideoLoopState) : VideoLoopState :=
  { s with
    cap_open := true
    retry_count := 0
    status := { s.status with
      video_connected := true
      connection_state := ConnectionState.connected
      error := none
      consecutive_failures := 0
      circuit_breaker_state := CircuitBreakerState.closed
      last_successful_connection := some now
      next_retry_time := none } }

/-- Reading one frame with the capture open (worker.py lines 383-410). -/
def videoReadFrame (now : Nat) (env : VideoEnv) (s : VideoLoopState) :
    VideoLoopState :=
  if env.readOk then
    { s with status := { s.status with last_frame_time := some now } }
  else
    { s with
      cap_open := false
      status := { s.status with
        video_connected := false
        connection_state := ConnectionState.retrying }
      sleeps := s.sleeps ++ [1] }

/-- The `try` block of one iteration (worker.py lines 321-424), with the
exception case modelled as raised at entry to the block. -/
def videoTryBody (now : Nat) (env : VideoEnv) (s : VideoLoopState) :
    VideoLoopState :=
  if env.raiseExc then
    let rc := s.retry_count + 1
    { s with
      cap_open := false
      retry_count := rc
      status := { s.status with
        error := some "exception"
        consecutive_failures := s.status.consecutive_failures + 1 }
      sleeps := s.sleeps ++ [videoBackoffDelay rc] }
  else if !s.cap_open then
    let s' := { s with
      attempts := s.attempts + 1
      status := { s.status with
        connection_state :=
          if s.retry_count = 0 then ConnectionState.connecting
          else ConnectionState.retrying
        retry_count := s.retry_count } }
    if env.connectOk then videoReadFrame now env (videoConnectSuccess now s')
    else videoConnectFail now s'
  else videoReadFrame now env s

/-- One iteration of the `while` loop of `_video_loop` (worker.py lines
300-424), starting with the circuit-breaker check of lines 301-319. -/
def videoStep (now : Nat) (env : VideoEnv) (s : VideoLoopState) :
    VideoLoopState :=
  if s.status.circuit_breaker_state = CircuitBreakerState.opened then
    let openedAt := s.breaker_opened_at.getD now
    if now - openedAt < CIRCUIT_BREAKER_RESET_TIME then
      { s with
        breaker_opened_at := some openedAt
        status := { s.status with
          connection_state := ConnectionState.failed
          error := some
            (cooldownMsg (CIRCUIT_BREAKER_RESET_TIME - (now - openedAt))) }
        sleeps := s.sleeps ++ [10] }
    else
      videoTryBody now env
        { s with
          breaker_opened_at := none
          status := { s.status with
            circuit_breaker_state := CircuitBreakerState.halfOpen } }
  else videoTryBody now env s

/-- The circuit-breaker invariant of the video loop: away from CLOSED, at
least `MAX_CONSECUTIVE_FAILURES` consecutive failures have been counted. -/
def BreakerInv (s : VideoLoopState) : Prop :=
  s.status.circuit_breaker_state ≠ CircuitBreakerState.closed →
    MAX_CONSECUTIVE_FAILURES ≤ s.status.consecutive_failures

/-! ## Concrete fixtures used by the theorems below -/

/-- A configured camera (id 5) with transcription enabled. -/
def cfgSample : StreamConfig :=
  { id := 5, name := "cam", rtsp_url := "rtsp://cam/5" }

/-- A one-camera database: id 5 is configured, everything else is not. -/
def dbSample : Int → Option StreamConfig :=
  fun i => if i = 5 then some cfgSample else none

/-- A freshly initialized status for stream 5. -/
def statusInit : StreamStatus := { stream_id := 5 }

/-- A running worker for camera 5 with a live, connected session:
both threads alive, ffmpeg subprocess running, last audio heard at t=0. -/
def workerLive : WorkerModel :=
  { config := cfgSample
    status := { stream_id := 5, is_running := true, video_connected := true,
                audio_connected := true, whisper_connected := true,
                connection_state := ConnectionState.connected,
                last_audio_time := some 0 }
    processors_live := true
    video_threads_spawned := 1
    audio_threads_spawned := 1
    video_thread_live := true
    audio_thread_live := true
    ffmpeg_running := true }

/-- Both loop threads observe the stop event and exit during the joins. -/
def envCoop : StopEnv := { video_thread_exits := true, audio_thread_exits := true }

/-- Neither loop thread exits during the joins (both blocked in reads). -/
def envHung : StopEnv := { video_thread_exits := false, audio_thread_exits := false }

/-- Initial audio-loop state for stream 5. -/
def audioInit : AudioLoopState := { status := statusInit }

/-- Initial video-loop state for stream 5. -/
def videoInit : VideoLoopState := { status := statusInit }

/-- A video-loop iteration whose connection attempt fails (no exception). -/
def envFail : VideoEnv := { raiseExc := false, connectOk := false }

/-- A video-loop iteration in which the try block raises an exception. -/
def envExc : VideoEnv := { raiseExc := true }

/-- A video-loop state with the breaker half-open after ten counted
failures, about to attempt a reconnection. -/
def halfOpenState : VideoLoopState :=
  { status := { stream_id := 5,
                circuit_breaker_state := CircuitBreakerState.halfOpen,
                connection_state := ConnectionState.failed,
                consecutive_failures := 10 } }

/-- A heap whose every address holds the initial status (only address 0 is
used). -/
def heap0 : StatusHeap := fun _ => statusInit

/-- A worker reference whose status object lives at address 0. -/
def wref : WorkerRef := { statusAddr := 0, video_thread_live := true }

/-! ## Helper lemmas -/

/-- Trimming the buffer to its last 100 entries keeps the just-appended
segment as the last element. -/
theorem trimTo100_getLast (l : List TranscriptSegment)
    (x : TranscriptSegment) : (trimTo100 (l ++ [x])).getLast? = some x := by
  unfold trimTo100
  split
  · rename_i h
    rw [List.drop_append_of_le_length, List.getLast?_concat]
    simp only [List.length_append, List.length_cons, List.length_nil] at h ⊢
    omega
  · exact List.getLast?_concat l

/-- A worker that is not running is left unchanged by `stop`. -/
theorem stop_of_not_running (env : StopEnv) (w : WorkerModel)
    (h : w.status.is_running = false) : StreamWorker.stop env w = w := by
  simp [StreamWorker.stop, h]

/-- Stopping a running worker leaves it not running. -/
theorem stop_result_not_running (env : StopEnv) (w : WorkerModel)
    (h : w.status.is_running = true) :
    (StreamWorker.stop env w).status.is_running = false := by
  simp only [StreamWorker.stop, h, Bool.not_true, Bool.false_eq_true,
    if_false]
  split <;> split <;>
    simp [StreamWorker.videoLoopCleanup, StreamWorker.audioLoopCleanup]

/-- A worker that is already running is left unchanged by `start`. -/
theorem start_of_running (w : WorkerModel)
    (h : w.status.is_running = true) : StreamWorker.start w = w := by
  simp [StreamWorker.start, h]

/-- Starting a stopped worker leaves it running. -/
theorem start_result_running (w : WorkerModel)
    (h : w.status.is_running = false) :
    (StreamWorker.start w).status.is_running = true := by
  simp [StreamWorker.start, h]

/-- The try block leaves the breaker `closed` only via a successful
connection attempt. -/
theorem videoTryBody_closes_only_on_success (now : Nat) (env : VideoEnv)
    (s : VideoLoopState)
    (hne : s.status.circuit_breaker_state ≠ CircuitBreakerState.closed)
    (hc : (videoTryBody now env s).status.circuit_breaker_state
        = CircuitBreakerState.closed) :
    env.raiseExc = false ∧ env.connectOk = true ∧ s.cap_open = false := by
  simp only [videoTryBody, videoConnectFail, videoConnectSuccess,
    videoReadFrame] at hc
  split_ifs at hc <;> simp_all

/-- The try block never decreases the failure counter unless it closes the
breaker. -/
theorem videoTryBody_failures_mono (now : Nat) (env : VideoEnv)
    (s : VideoLoopState)
    (ho : (videoTryBody now env s).status.circuit_breaker_state
        ≠ CircuitBreakerState.closed) :
    s.status.consecutive_failures
      ≤ (videoTryBody now env s).status.consecutive_failures := by
  simp only [videoTryBody, videoConnectFail, videoConnectSuccess,
    videoReadFrame] at ho ⊢
  split_ifs at ho ⊢ <;> simp_all

/-- The try block preserves the breaker invariant. -/
theorem videoTryBody_breakerInv (now : Nat) (env : VideoEnv)
    (s : VideoLoopState) (h : BreakerInv s) :
    BreakerInv (videoTryBody now env s) := by
  unfold BreakerInv at h ⊢
  simp only [videoTryBody, videoConnectFail, videoConnectSuccess,
    videoReadFrame, MAX_CONSECUTIVE_FAILURES] at h ⊢
  split_ifs <;> intro hne <;> simp_all <;> omega

/-- The try block opens the breaker only with the failure counter at or
above the threshold. -/
theorem videoTryBody_opens_at_threshold (now : Nat) (env : VideoEnv)
    (s : VideoLoopState)
    (hne : s.status.circuit_breaker_state ≠ CircuitBreakerState.opened)
    (ho : (videoTryBody now env s).status.circuit_breaker_state
        = CircuitBreakerState.opened) :
    MAX_CONSECUTIVE_FAILURES
      ≤ (videoTryBody now env s).status.consecutive_failures := by
  simp only [videoTryBody, videoConnectFail, videoConnectSuccess,
    videoReadFrame] at ho ⊢
  split_ifs at ho ⊢ <;> simp_all

/-- A failed connection attempt with the breaker half-open (and at least
threshold-many counted failures) reopens the breaker and stamps the
cooldown clock with the current time. -/
theorem videoTryBody_halfOpen_fail_reopens (now : Nat) (env : VideoEnv)
    (s : VideoLoopState)
    (hf : MAX_CONSECUTIVE_FAILURES ≤ s.status.consecutive_failures)
    (he : env.raiseExc = false) (hk : env.connectOk = false)
    (hcap : s.cap_open = false) :
    (videoTryBody now env s).status.circuit_breaker_state
      = CircuitBreakerState.opened ∧
    (videoTryBody now env s).breaker_opened_at = some now := by
  simp only [videoTryBody, videoConnectFail, videoConnectSuccess,
    videoReadFrame, he, hk, hcap] at *
  split_ifs <;> simp_all <;> omega

/-! ## Claim theorems -/

/-- C9.  `Start` and `Stop` are idempotent: a second `start` (or a second
`stop`, under any join environment) leaves the worker state exactly as
after the first call; in particular the second call spawns no additional
video or audio threads. -/
theorem start_stop_idempotent (env : StopEnv) (w : WorkerModel) :
    StreamWorker.start (StreamWorker.start w) = StreamWorker.start w ∧
    StreamWorker.stop env (StreamWorker.stop env w)
      = StreamWorker.stop env w ∧
    (StreamWorker.start (StreamWorker.start w)).video_threads_spawned
      = (StreamWorker.start w).video_threads_spawned ∧
    (StreamWorker.start (StreamWorker.start w)).audio_threads_spawned
      = (StreamWorker.start w).audio_threads_spawned := by
  have hs : StreamWorker.start (StreamWorker.start w)
      = StreamWorker.start w := by
    cases h : w.status.is_running
    · exact start_of_running _ (start_result_running w h)
    · rw [start_of_running w h, start_of_running w h]
  have hp : StreamWorker.stop env (StreamWorker.stop env w)
      = StreamWorker.stop env w := by
    cases h : w.status.is_running
    · rw [stop_of_not_running env w h, stop_of_not_running env w h]
    · exact stop_of_not_running _ _ (stop_result_not_running env w h)
  exact ⟨hs, hp, by rw [hs], by rw [hs]⟩

/-- C10.  A received final segment whose text is empty or whitespace-only
is not persisted to the transcript service and not written to the
transcript file, yet it is still appended to the in-memory buffer (which
keeps it as its last element), recorded as the last transcript, and
emitted as a transcript event. -/
theorem blank_final_buffered_not_persisted (cfg : StreamConfig)
    (hasCb : Bool) (st : ReceiveState) (text : String) (start endTime : ℚ)
    (hblank : pyStripTruthy text = false) :
    (receiveTranscriptMessage cfg hasCb st text start endTime true).persisted
        = st.persisted ∧
    (receiveTranscriptMessage cfg hasCb st text start endTime
        true).file_writes = st.file_writes ∧
    (receiveTranscriptMessage cfg hasCb st text start endTime
        true).transcript_segments
      = trimTo100 (st.transcript_segments
          ++ [{ text := text, start_time := start, end_time := endTime,
                is_final := true }]) ∧
    (receiveTranscriptMessage cfg hasCb st text start endTime
        true).transcript_segments.getLast?
      = some { text := text, start_time := start, end_time := endTime,
               is_final := true } ∧
    (receiveTranscriptMessage cfg hasCb st text start endTime
        true).last_transcript = some text ∧
    (receiveTranscriptMessage cfg hasCb st text start endTime true).emitted
      = st.emitted ++ [{ text := text, start_time := start,
                         end_time := endTime, is_final := true }] := by
  refine ⟨?_, ?_, ?_, ?_, ?_, ?_⟩ <;>
    simp [receiveTranscriptMessage, hblank, trimTo100_getLast]

/-- Witness for C10 at a concrete whitespace-only final segment. -/
theorem blank_final_buffered_not_persisted_witness :
    pyStripTruthy "  " = false ∧
    (receiveTranscriptMessage cfgSample false {} "  " 2 3 true).persisted
      = ReceiveState.persisted {} := by
  refine ⟨by decide, ?_⟩
  exact (blank_final_buffered_not_persisted cfgSample false {} "  " 2 3
    (by decide)).1

/-- C1, counterexample.  Receiving the same final segment
`(start=2.00, text="hello")` twice yields two persisted transcripts and
two emitted transcript events — not one of each: `_receive_transcripts`
keeps no deduplication key set at all. -/
theorem repeated_final_persisted_twice :
    (receiveTranscriptMessage cfgSample false
        (receiveTranscriptMessage cfgSample false {} "hello" 2 3 true)
        "hello" 2 3 true).persisted.length = 2 ∧
    (receiveTranscriptMessage cfgSample false
        (receiveTranscriptMessage cfgSample false {} "hello" 2 3 true)
        "hello" 2 3 true).emitted.length = 2 := by
  decide

/-- C1, amended.  Final transcript segments are not deduplicated: every
receipt of a final segment with non-blank text appends exactly one record
to the persisted transcripts and one transcript event to the emitted
events, regardless of whether an identical segment was received before. -/
theorem final_segment_appended_every_receipt (cfg : StreamConfig)
    (hasCb : Bool) (st : ReceiveState) (text : String) (start endTime : ℚ)
    (htext : pyStripTruthy text = true) :
    (receiveTranscriptMessage cfg hasCb st text start endTime true).persisted
      = st.persisted ++
        [{ stream_id := cfg.id, text := text, start_time := start,
           end_time := endTime, is_final := true }] ∧
    (receiveTranscriptMessage cfg hasCb st text start endTime true).emitted
      = st.emitted ++
        [{ text := text, start_time := start, end_time := endTime,
           is_final := true }] := by
  constructor <;> simp [receiveTranscriptMessage, htext]

/-- Witness for the amended C1 at the concrete segment
`(start=2.00, text="hello")`. -/
theorem final_segment_appended_every_receipt_witness :
    pyStripTruthy "hello" = true ∧
    (receiveTranscriptMessage cfgSample false {} "hello" 2 3 true).persisted
      = [{ stream_id := cfgSample.id, text := "hello", start_time := 2,
           end_time := 3, is_final := true }] := by
  refine ⟨by decide, ?_⟩
  exact (final_segment_appended_every_receipt cfgSample false {} "hello" 2 3
    (by decide)).1

/-- C2.  `start_stream` on an unknown id reports failure as a boolean
(`False`) without raising, as claimed; but on a configured, not-running id
it raises `TypeError` instead of constructing the worker and returning
`True`: the construction site passes the keyword `whisper_model`, which
`StreamWorker.__init__` does not accept. -/
theorem start_stream_known_id_raises_type_error :
    startStream dbSample [] 5 = Except.error PyError.typeError ∧
    startStream dbSample [] 7 = Except.ok (false, []) ∧
    pyCallKeywordsAccepted streamWorkerInitParams startStreamCallKeywords
      = false := by
  refine ⟨rfl, rfl, by decide⟩

/-- C3.  On a running worker with transcription enabled, a live audio
thread and a heartbeat 31 s old (watchdog timeout 30 s), one health-monitor
check does stop and restart the worker — but the attempted restart-counter
update raises `AttributeError` (caught and logged), because `StreamWorker`
has no `_update_status` method and `StreamStatus` has no
`watchdog_restarts` field; no counter is incremented. -/
theorem watchdog_restarts_without_counter :
    checkWorkerHealth 31 envCoop workerLive
      = (StreamWorker.start (StreamWorker.stop envCoop workerLive),
         some PyError.attributeError) ∧
    streamStatusFieldNames.contains "watchdog_restarts" = false ∧
    streamWorkerAttrNames.contains "_update_status" = false := by
  refine ⟨rfl, by decide, by decide⟩

/-- C4, counterexample.  Ten consecutive failures of the
audio-extraction-and-transcription session leave the circuit breaker
`closed` (it is never `opened`), and the audio loop makes an 11th
connection attempt on its very next iteration — long before any 300 s
cooldown: the circuit breaker is not wired to the audio path at all. -/
theorem audio_failures_never_open_breaker :
    ((fun s => audioIter s SessionOutcome.swallowed)^[10]
        audioInit).status.circuit_breaker_state
      = CircuitBreakerState.closed ∧
    ((fun s => audioIter s SessionOutcome.swallowed)^[10]
        audioInit).status.circuit_breaker_state
      ≠ CircuitBreakerState.opened ∧
    ((fun s => audioIter s SessionOutcome.swallowed)^[10]
        audioInit).attempts_made = 10 ∧
    (audioIter ((fun s => audioIter s SessionOutcome.swallowed)^[10]
        audioInit) SessionOutcome.swallowed).attempts_made = 11 := by
  decide

/-- C4, amended.  The `MAX_FAILURES = 10` circuit breaker guards the video
capture loop, not the audio session: ten consecutive audio-session failures
leave the breaker `closed` and an 11th audio attempt follows, while ten
consecutive failed video connection attempts open the breaker with the
pausing-retries message, and a later iteration inside the cooldown makes no
video connection attempt and reports the remaining cooldown (here 200 s
after 100 s of a 300 s cooldown). -/
theorem breaker_guards_video_not_audio :
    ((fun s => audioIter s SessionOutcome.swallowed)^[10]
        audioInit).status.circuit_breaker_state
      = CircuitBreakerState.closed ∧
    (audioIter ((fun s => audioIter s SessionOutcome.swallowed)^[10]
        audioInit) SessionOutcome.swallowed).attempts_made = 11 ∧
    ((videoStep 0 envFail)^[10] videoInit).status.circuit_breaker_state
      = CircuitBreakerState.opened ∧
    ((videoStep 0 envFail)^[10] videoInit).status.error
      = some breakerOpenMsg ∧
    ((videoStep 0 envFail)^[10] videoInit).attempts = 10 ∧
    (videoStep 100 envFail
        ((videoStep 0 envFail)^[10] videoInit)).attempts = 10 ∧
    (videoStep 100 envFail
        ((videoStep 0 envFail)^[10] videoInit)).status.error
      = some (cooldownMsg 200) ∧
    (videoStep 100 envFail
        ((videoStep 0 envFail)^[10]
          videoInit)).status.circuit_breaker_state
      = CircuitBreakerState.opened := by
  decide

/-- C8.  The audio loop's retry delays do not follow
`table[min(i, len(table)-1)]`: a session failure caught inside
`_whisper_connection` (e.g. a refused connection) returns normally from
`asyncio.run`, so line 442 resets the attempt counter and the second
consecutive failure sleeps `table[0] = 1` second where the claimed
schedule gives `table[1] = 2`.  (The comment above the reset says it
applies to connections that "ended gracefully"; it runs for every swallowed
failure.) -/
theorem swallowed_failures_defeat_backoff :
    (audioIter (audioIter audioInit SessionOutcome.swallowed)
        SessionOutcome.swallowed).delays = [1, 1] ∧
    claimedAudioDelay 0 = 1 ∧
    claimedAudioDelay 1 = 2 ∧
    (audioIter (audioIter audioInit SessionOutcome.raised)
        SessionOutcome.raised).delays
      = [claimedAudioDelay 0, claimedAudioDelay 1] := by
  decide

/-- C5, counterexample.  The `status` property returns a reference into the
live mutable status, not a point-in-time copy: after a read, an unlocked
field mutation (`whisper_connected := true`) is visible through the value
the read returned, so the two observations of the same read differ. -/
theorem status_read_aliases_live_state :
    ((setWhisperConnected (statusProperty heap0 wref).2 wref true)
        (statusProperty heap0 wref).1).whisper_connected = true ∧
    ((statusProperty heap0 wref).2
        (statusProperty heap0 wref).1).whisper_connected = false ∧
    (setWhisperConnected (statusProperty heap0 wref).2 wref true)
        (statusProperty heap0 wref).1
      ≠ (statusProperty heap0 wref).2 (statusProperty heap0 wref).1 := by
  decide

/-- C5, amended.  `StreamWorker.status` refreshes the thread-health fields
on the live status object and returns that object's reference, with no
mutex anywhere: every later field mutation is visible through any
previously returned reference, so reads are live views, never atomic
snapshots. -/
theorem status_read_returns_live_reference (h : StatusHeap)
    (w : WorkerRef) (b : Bool) :
    (statusProperty h w).1 = w.statusAddr ∧
    ((setWhisperConnected (statusProperty h w).2 w b)
        (statusProperty h w).1).whisper_connected = b := by
  constructor
  · rfl
  · simp [statusProperty, setWhisperConnected, writeStatus]

/-- C6.  `stop()` does not itself tear down the extraction subprocess and
does not set the connection state: when both loop threads are blocked (a
stuck `ffmpeg` stdout read), `stop()` sets the cancellation signal, joins
with 5 s timeouts, clears the connectivity flags and returns — with the
ffmpeg subprocess still running and the connection state still
`connected`, not `stopped`.  The bounded teardown the claim (and the
comment in `StreamManager._check_thread_health`) describes does not
happen. -/
theorem stop_hung_leaves_subprocess_running :
    (StreamWorker.stop envHung workerLive).stop_event_set = true ∧
    (StreamWorker.stop envHung workerLive).status.is_running = false ∧
    (StreamWorker.stop envHung workerLive).ffmpeg_running = true ∧
    (StreamWorker.stop envHung workerLive).status.connection_state
      = ConnectionState.connected ∧
    (StreamWorker.stop envHung workerLive).status.connection_state
      ≠ ConnectionState.stopped := by
  decide

/-- C7, counterexample.  A failure while the breaker is half-open does not
always return it to `opened`: an exception in the try block (worker.py
lines 412-424) increments the failure counter and backs off but leaves the
breaker half-open — only a failed capture open re-opens it. -/
theorem half_open_exception_stays_half_open :
    (videoStep 1000 envExc halfOpenState).status.circuit_breaker_state
      = CircuitBreakerState.halfOpen ∧
    CircuitBreakerState.halfOpen ≠ CircuitBreakerState.opened ∧
    (videoStep 1000 envExc halfOpenState).status.consecutive_failures
      = 11 := by
  decide

/-- C7, amended.  One video-loop iteration preserves the circuit-breaker
state machine: the invariant (away from `closed`, at least
`MAX_CONSECUTIVE_FAILURES` failures are counted) is preserved; the breaker
moves to `opened` only with the counter at or above the threshold; it
leaves `opened` only after the 300 s cooldown has elapsed; it reaches
`closed` only through a successful connection attempt; a *failed
connection attempt* (not an exception) while half-open re-opens it and
resets the cooldown clock to the current time; and the failure counter
never decreases — in particular is never reset to 0 — while the breaker
stays `opened`. -/
theorem video_circuit_breaker_invariants (now : Nat) (env : VideoEnv)
    (s : VideoLoopState) (hInv : BreakerInv s) :
    BreakerInv (videoStep now env s) ∧
    (s.status.circuit_breaker_state ≠ CircuitBreakerState.opened →
      (videoStep now env s).status.circuit_breaker_state
          = CircuitBreakerState.opened →
      MAX_CONSECUTIVE_FAILURES
        ≤ (videoStep now env s).status.consecutive_failures) ∧
    (s.status.circuit_breaker_state = CircuitBreakerState.opened →
      (videoStep now env s).status.circuit_breaker_state
          ≠ CircuitBreakerState.opened →
      ∃ t, s.breaker_opened_at = some t
        ∧ CIRCUIT_BREAKER_RESET_TIME ≤ now - t) ∧
    (s.status.circuit_breaker_state ≠ CircuitBreakerState.closed →
      (videoStep now env s).status.circuit_breaker_state
          = CircuitBreakerState.closed →
      env.raiseExc = false ∧ env.connectOk = true ∧ s.cap_open = false) ∧
    (s.status.circuit_breaker_state = CircuitBreakerState.halfOpen →
      env.raiseExc = false → env.connectOk = false → s.cap_open = false →
      (videoStep now env s).status.circuit_breaker_state
          = CircuitBreakerState.opened ∧
      (videoStep now env s).breaker_opened_at = some now) ∧
    (s.status.circuit_breaker_state = CircuitBreakerState.opened →
      (videoStep now env s).status.circuit_breaker_state
          = CircuitBreakerState.opened →
      s.status.consecutive_failures
        ≤ (videoStep now env s).status.consecutive_failures) := by
  by_cases hop :
      s.status.circuit_breaker_state = CircuitBreakerState.opened
  · by_cases hcd :
        now - s.breaker_opened_at.getD now < CIRCUIT_BREAKER_RESET_TIME
    · have hr : videoStep now env s =
          { s with
            breaker_opened_at := some (s.breaker_opened_at.getD now)
            status := { s.status with
              connection_state := ConnectionState.failed
              error := some (cooldownMsg (CIRCUIT_BREAKER_RESET_TIME
                - (now - s.breaker_opened_at.getD now))) }
            sleeps := s.sleeps ++ [10] } := by
        simp [videoStep, hop, hcd]
      rw [hr]
      refine ⟨?_, ?_, ?_, ?_, ?_, ?_⟩
      · intro _; simpa using hInv (by simp [hop])
      · intro h2; exact absurd hop h2
      · intro _ h3; exact absurd (by simpa using hop) h3
      · intro _ h4
        exact absurd (by simpa using h4) (by simp [hop])
      · intro h5; rw [hop] at h5; exact absurd h5.symm (by simp)
      · intro _ _; simp
    · have hr : videoStep now env s = videoTryBody now env
          { s with
            breaker_opened_at := none
            status := { s.status with
              circuit_breaker_state := CircuitBreakerState.halfOpen } } := by
        simp [videoStep, hop, hcd]
      have hInv' : BreakerInv
          { s with
            breaker_opened_at := none
            status := { s.status with
              circuit_breaker_state := CircuitBreakerState.halfOpen } } := by
        intro _; simpa using hInv (by simp [hop])
      rw [hr]
      refine ⟨videoTryBody_breakerInv _ _ _ hInv', ?_, ?_, ?_, ?_, ?_⟩
      · intro h2; exact absurd hop h2
      · intro _ _
        cases hbo : s.breaker_opened_at with
        | none => rw [hbo] at hcd; simp [CIRCUIT_BREAKER_RESET_TIME] at hcd
        | some t =>
            rw [hbo] at hcd
            simp only [Option.getD_some] at hcd
            exact ⟨t, rfl, by omega⟩
      · intro _ hc
        have := videoTryBody_closes_only_on_success now env _
          (by simp) hc
        simpa using this
      · intro h5; rw [hop] at h5; exact absurd h5.symm (by simp)
      · intro _ hro
        have := videoTryBody_failures_mono now env
          { s with
            breaker_opened_at := none
            status := { s.status with
              circuit_breaker_state := CircuitBreakerState.halfOpen } }
          (by rw [hro]; simp)
        simpa using this
  · have hr : videoStep now env s = videoTryBody now env s := by
      simp [videoStep, hop]
    rw [hr]
    refine ⟨videoTryBody_breakerInv _ _ _ hInv, ?_, ?_, ?_, ?_, ?_⟩
    · intro _ ho; exact videoTryBody_opens_at_threshold now env s hop ho
    · intro h3; exact absurd h3 hop
    · intro hne hc
      exact videoTryBody_closes_only_on_success now env s hne hc
    · intro hho he hk hcap
      exact videoTryBody_halfOpen_fail_reopens now env s
        (hInv (by simp [hho])) he hk hcap
    · intro h6; exact absurd h6 hop

/-- Witness for the amended C7 at the concrete half-open state with ten
counted failures, a failed connection attempt, at time 0. -/
theorem video_circuit_breaker_invariants_witness :
    BreakerInv halfOpenState ∧
    (BreakerInv (videoStep 0 envFail halfOpenState) ∧
    (halfOpenState.status.circuit_breaker_state
        ≠ CircuitBreakerState.opened →
      (videoStep 0 envFail halfOpenState).status.circuit_breaker_state
          = CircuitBreakerState.opened →
      MAX_CONSECUTIVE_FAILURES
        ≤ (videoStep 0 envFail halfOpenState).status.consecutive_failures) ∧
    (halfOpenState.status.circuit_breaker_state
        = CircuitBreakerState.opened →
      (videoStep 0 envFail halfOpenState).status.circuit_breaker_state
          ≠ CircuitBreakerState.opened →
      ∃ t, halfOpenState.breaker_opened_at = some t
        ∧ CIRCUIT_BREAKER_RESET_TIME ≤ 0 - t) ∧
    (halfOpenState.status.circuit_breaker_state
        ≠ CircuitBreakerState.closed →
      (videoStep 0 envFail halfOpenState).status.circuit_breaker_state
          = CircuitBreakerState.closed →
      envFail.raiseExc = false ∧ envFail.connectOk = true
        ∧ halfOpenState.cap_open = false) ∧
    (halfOpenState.status.circuit_breaker_state
        = CircuitBreakerState.halfOpen →
      envFail.raiseExc = false → envFail.connectOk = false →
      halfOpenState.cap_open = false →
      (videoStep 0 envFail halfOpenState).status.circuit_breaker_state
          = CircuitBreakerState.opened ∧
      (videoStep 0 envFail halfOpenState).breaker_opened_at = some 0) ∧
    (halfOpenState.status.circuit_breaker_state
        = CircuitBreakerState.opened →
      (videoStep 0 envFail halfOpenState).status.circuit_breaker_state
          = CircuitBreakerState.opened →
      halfOpenState.status.consecutive_failures
        ≤ (videoStep 0 envFail halfOpenState).status.consecutive_failures)) := by
  have h : BreakerInv halfOpenState := by intro _; decide
  exact ⟨h, video_circuit_breaker_invariants 0 envFail halfOpenState h⟩

end TheWallflower
